import Mathlib

/-!
Shallow embedding of the step-up authentication and payment state-machine
subsystem of the payment-approval portal: the session token codec
(src/lib/auth/jwt.js), the session lifecycle reader (src/lib/auth/session.js),
the step-up guard (src/lib/security/reauth.js), the audit model
(src/lib/db/models/audit.js) and the payment verify/send route handlers
(src/app/api/payment/verify/route.js, src/app/api/payment/send/route.js).

Timestamps are Unix seconds, modelled as `Int`.  External primitives
(bcrypt comparison, TOTP check) are opaque boolean-valued parameters, as the
design document treats them.  JavaScript truthiness on possibly-absent
numeric object fields is modelled with `Option Int` plus an explicit
truthiness test.
-/

/- ## Session token codec (src/lib/auth/jwt.js) -/

/-- Opaque stand-in for the `SESSION_SECRET` environment value used as the
HMAC key by jwt.js. -/
def SESSION_SECRET : String := "session-secret"

/-- jwt.js line 4: `SESSION_DURATION = 30*60`. -/
def SESSION_DURATION : Int := 30 * 60

/-- Claims carried in a session token, as built by session.js.  The three
timestamp fields are optional because the object spread in
`updateSessionActivity` (session.js line 139) copies them from the user
object returned by `verifyToken`, which omits them. -/
structure SessionClaims where
  userId : String
  userName : String
  fullName : String
  role : String
  sessionId : String
  issuedAt : Int
  lastActivity : Option Int
  absoluteExpiry : Option Int
  idleExpiry : Option Int
deriving Repr, DecidableEq

/-- A syntactically well-formed signed JWT as jsonwebtoken sees it: the
application claims plus the registered claims and signature data
(`key` records which secret produced the signature, `alg` the algorithm). -/
structure SignedToken where
  payload : SessionClaims
  iss : String
  aud : String
  jti : String
  iat : Int
  exp : Int
  alg : String
  key : String
deriving Repr, DecidableEq

/-- A token string presented by a client: either not parseable as a JWT at
all, or a structurally valid signed token. -/
inductive Token
  | malformed (raw : String)
  | signed (t : SignedToken)
deriving Repr, DecidableEq

/-- jwt.js lines 6-17, `signToken`.  jsonwebtoken sets `iat` to the signing
time and `exp = iat + expiresIn`; the route adds fixed `iss`/`aud` and
`jti = sessionId`, and signs with HS256 under `SESSION_SECRET`. -/
def signToken (payload : SessionClaims) (signTime : Int) : SignedToken :=
  { payload := payload
    iss := "DreamTeamSecurity"
    aud := "PaymentPortal"
    jti := payload.sessionId
    iat := signTime
    exp := signTime + SESSION_DURATION
    alg := "HS256"
    key := SESSION_SECRET }

/-- Result of `verifyToken` (jwt.js lines 19-48): a tagged value, never an
exception. -/
inductive VerifyTokenResult
  | invalid (error : String)
  | valid (user : SessionClaims) (exp : Int)
deriving Repr, DecidableEq

/-- jwt.js lines 19-48, `verifyToken`.  jsonwebtoken checks the signature
(our `key` field), the pinned `algorithms: ['HS256']` list, and expiry
(`clockTimestamp >= exp` raises TokenExpiredError).  The options object also
carries `iss` and `aud`, but those are not option names jsonwebtoken
recognises (the real options are `issuer` and `audience`), so no issuer or
audience comparison happens.  The `user` object literal at lines 29-36
copies only `userId`, `userName`, `fullName`, `role`, `sessionId` and
`issuedAt := decoded.iat`; the `lastActivity`, `absoluteExpiry` and
`idleExpiry` claims are not copied, hence `none` here. -/
def verifyToken (tok : Token) (now : Int) : VerifyTokenResult :=
  match tok with
  | .malformed _ => .invalid "Invalid token"
  | .signed t =>
    if t.key ≠ SESSION_SECRET ∨ t.alg ≠ "HS256" then .invalid "Invalid token"
    else if t.exp ≤ now then .invalid "Token expired"
    else .valid
      { userId := t.payload.userId
        userName := t.payload.userName
        fullName := t.payload.fullName
        role := t.payload.role
        sessionId := t.payload.sessionId
        issuedAt := t.iat
        lastActivity := none
        absoluteExpiry := none
        idleExpiry := none } t.exp

/- ## Session lifecycle (src/lib/auth/session.js) -/

/-- session.js line 7. -/
def ABSOLUTE_TIMEOUT : Int := 30 * 60

/-- session.js line 8. -/
def IDLE_TIMEOUT : Int := 10 * 60

/-- session.js line 9. -/
def RENEWAL_THRESHOLD : Int := 2 * 60

/-- session.js lines 14-33, `createSessionCookie`: the payload of a fresh
login session, anchored at `now`. -/
def createSessionPayload (userId userName fullName role sessionId : String)
    (now : Int) : SessionClaims :=
  { userId := userId
    userName := userName
    fullName := fullName
    role := role
    sessionId := sessionId
    issuedAt := now
    lastActivity := some now
    absoluteExpiry := some (now + ABSOLUTE_TIMEOUT)
    idleExpiry := some (now + IDLE_TIMEOUT) }

/-- session.js lines 134-144, `updateSessionActivity`: spreads the current
session user object and overwrites `lastActivity` and `idleExpiry`.  All
other fields, including `absoluteExpiry`, are whatever the spread source
held (absent when the source came from `verifyToken`). -/
def updateSessionPayload (user : SessionClaims) (now : Int) : SessionClaims :=
  { user with lastActivity := some now, idleExpiry := some (now + IDLE_TIMEOUT) }

/-- JavaScript truthiness of a possibly-absent numeric field: `undefined`
and `0` are falsy. -/
def jsTruthy : Option Int → Bool
  | none => false
  | some n => n != 0

/-- Result of `getSession` (session.js lines 86-131): `null`, an invalid
marker with a reason, or a valid session. -/
inductive SessionRead
  | noSession
  | expired (reason : String)
  | valid (user : SessionClaims) (needsRenewal : Bool)
deriving Repr, DecidableEq

/-- True only on the `valid` constructor. -/
def SessionRead.isValidRead : SessionRead → Bool
  | .valid _ _ => true
  | _ => false

/-- True only on `expired "absolute_timeout"`. -/
def SessionRead.isAbsoluteTimeout : SessionRead → Bool
  | .expired r => r == "absolute_timeout"
  | _ => false

/-- session.js lines 86-131, `getSession`, given the session-token cookie
value and the clock.  After `verifyToken` succeeds, the code tests
`session.absoluteExpiry && now > session.absoluteExpiry` and
`session.idleExpiry && now > session.idleExpiry` on the returned user
object; `needsRenewal` is `(session.idleExpiry - now) < RENEWAL_THRESHOLD`,
which on an absent field is `NaN < 120`, i.e. false. -/
def getSession (tok : Token) (now : Int) : SessionRead :=
  match verifyToken tok now with
  | .invalid _ => .noSession
  | .valid session _exp =>
    if jsTruthy session.absoluteExpiry && decide (session.absoluteExpiry.getD 0 < now) then
      .expired "absolute_timeout"
    else if jsTruthy session.idleExpiry && decide (session.idleExpiry.getD 0 < now) then
      .expired "idle_timeout"
    else
      .valid session
        (match session.idleExpiry with
          | some i => decide (i - now < RENEWAL_THRESHOLD)
          | none => false)

/- ## Concrete session trace used for the absolute-timeout analysis -/

/-- A login session created at time 0; its `absoluteExpiry` is 1800. -/
def c1Payload0 : SessionClaims :=
  createSessionPayload "64ab" "EMP001" "Jane Doe" "employee" "sid-1" 0

/-- The token issued at login (time 0). -/
def c1Token1 : Token := .signed (signToken c1Payload0 0)

/-- The user object `getSession` yields for the login token at time 500. -/
def c1UserAt500 : SessionClaims :=
  match verifyToken c1Token1 500 with
  | .valid u _ => u
  | .invalid _ => c1Payload0

/-- The payload of the activity-renewal token issued at time 500
(session.js `updateSessionActivity` applied to the verified user). -/
def c1RenewedClaims : SessionClaims := updateSessionPayload c1UserAt500 500

/-- The renewed token, signed at time 500 (its JWT `exp` is 2300). -/
def c1Token2 : Token := .signed (signToken c1RenewedClaims 500)

/- ## Step-up guard (src/lib/security/reauth.js) -/

/-- reauth.js line 21: default re-auth window, seconds. -/
def REAUTH_WINDOW_SECONDS : Int := 300

/-- reauth.js line 22: default step-up amount threshold (used by callers,
not by the guard itself). -/
def PAYMENT_STEP_UP_THRESHOLD : Int := 10000

/-- reauth.js line 23. -/
def MAX_REAUTH_FAILURES : Nat := 5

/-- The persisted employee fields the guard reads and writes
(src/lib/db/models/employee.js): the bcrypt password digest, TOTP
enrollment data, the re-auth watermark `lastReauthAt` and the consecutive
failure counter `reauthFailures`. -/
structure EmployeeRec where
  password : String
  totpEnrolled : Bool
  totpSecretEncrypted : Option String
  lastReauthAt : Option Int
  reauthFailures : Nat
deriving Repr, DecidableEq

/-- The tagged failures `requireReauthIfNeeded` throws (each an `Error`
with a `.status` field in the source). -/
inductive ReauthError
  | employeeNotFound
  | tooManyAttempts
  | reauthRequired
  | invalidCredentials
  | invalidSecondFactor
deriving Repr, DecidableEq

/-- HTTP status attached to each guard failure (reauth.js lines 49, 56,
64, 75, 86). -/
def ReauthError.status : ReauthError → Nat
  | .tooManyAttempts => 429
  | _ => 401

/-- Outcome of a guard call: the returned employee document, or a thrown
tagged failure. -/
inductive ReauthResult
  | ok (employee : EmployeeRec)
  | err (e : ReauthError)
deriving Repr, DecidableEq

/-- True only on the `ok` constructor. -/
def ReauthResult.isOk : ReauthResult → Bool
  | .ok _ => true
  | .err _ => false

/-- A guard call's observable effect: the result handed to the caller and
the employee record as persisted in the store after the call. -/
structure ReauthOutcome where
  result : ReauthResult
  db : Option EmployeeRec
deriving Repr, DecidableEq

/-- security/totp.js lines 21-33, `verifyTOTP`: returns false when either
the stored encrypted secret or the supplied code is missing or empty
(JavaScript falsiness), otherwise defers to the opaque otplib check
`tcheck` on the stored secret and the code. -/
def verifyTOTP (tcheck : String → String → Bool)
    (encryptedSecret : Option String) (code : Option String) : Bool :=
  match encryptedSecret, code with
  | some s, some c => if s = "" ∨ c = "" then false else tcheck s c
  | _, _ => false

/-- reauth.js line 37-40 condition: the employee document exists, has a
non-null `lastReauthAt`, and `now - last <= REAUTH_WINDOW_SECONDS`. -/
def recentBypass (employee : EmployeeRec) (now : Int) : Bool :=
  match employee.lastReauthAt with
  | some last => decide (now - last ≤ REAUTH_WINDOW_SECONDS)
  | none => false

/-- reauth.js lines 30-96, `requireReauthIfNeeded`.

`vp` is the opaque bcrypt comparison (auth/password.js `verifyPassword`),
`tcheck` the opaque otplib check.  `saveOk` models whether the
`employee.save()` calls succeed; every save in the guard is followed by
`.catch(() => {})`, so a failed save never changes the thrown/returned
outcome, only the persisted record (`db`).  `employee?` is the document
`Employee.findById(sessionUser.userId)` yields (both loads at lines 36 and
46 read the same record).  `amount` is the destructured `amount` argument,
which the function body never uses.  A missing or empty password string is
falsy at line 62. -/
def requireReauthIfNeeded (vp tcheck : String → String → Bool) (saveOk : Bool)
    (employee? : Option EmployeeRec) (now : Int) (amount : Option Int)
    (reauthPassword totpCode : Option String) : ReauthOutcome :=
  match employee? with
  | none => ⟨.err .employeeNotFound, none⟩
  | some employee =>
    if recentBypass employee now then
      ⟨.ok employee, some employee⟩
    else if MAX_REAUTH_FAILURES ≤ employee.reauthFailures then
      ⟨.err .tooManyAttempts, some employee⟩
    else if reauthPassword.getD "" = "" then
      ⟨.err .reauthRequired, some employee⟩
    else if ¬ vp (reauthPassword.getD "") employee.password then
      let e1 := { employee with reauthFailures := employee.reauthFailures + 1 }
      ⟨.err .invalidCredentials, some (if saveOk then e1 else employee)⟩
    else if employee.totpEnrolled
        ∧ ¬ verifyTOTP tcheck employee.totpSecretEncrypted totpCode then
      let e1 := { employee with reauthFailures := employee.reauthFailures + 1 }
      ⟨.err .invalidSecondFactor, some (if saveOk then e1 else employee)⟩
    else
      let e1 := { employee with reauthFailures := 0, lastReauthAt := some now }
      ⟨.ok e1, some (if saveOk then e1 else employee)⟩

/- ## JavaScript string primitives used by the verify route -/

/-- JavaScript whitespace test restricted to the ASCII whitespace in play. -/
def jsIsWhitespace (c : Char) : Bool :=
  c == ' ' || c == '\t' || c == '\n' || c == '\r'

/-- Character-wise ASCII uppercasing: the behavior of
`String.prototype.toUpperCase` on the ASCII SWIFT strings involved. -/
def jsToUpper (s : String) : String := String.mk (s.data.map Char.toUpper)

/-- Drop leading and trailing whitespace: the behavior of
`String.prototype.trim` on the strings involved. -/
def jsTrim (s : String) : String :=
  String.mk (((s.data.dropWhile jsIsWhitespace).reverse.dropWhile
    jsIsWhitespace).reverse)

/- ## Audit model (src/lib/db/models/audit.js) -/

/-- Action tags the application writes to the audit collection across the
login, verify, send and reauth routes. -/
inductive AuditAction
  | login
  | verify
  | send
  | reauth_success
  | reauth_failure
deriving Repr, DecidableEq

/-- audit.js lines 28-33: the schema's enum validator for `action` only
admits these three values. -/
def auditActionEnum : List AuditAction := [.login, .verify, .send]

/-- Fields of an audit document relevant here. -/
structure AuditRecord where
  employeeId : String
  action : AuditAction
  paymentId : Option String
deriving Repr, DecidableEq

/-- Mongoose `Audit.create`: schema validation runs on create, and a value
outside the `action` enum raises a ValidationError, so nothing is
persisted.  Every call site wraps `Audit.create` in a try/catch whose
handler only logs, so a rejected record is silently dropped. -/
def auditCreate (r : AuditRecord) : Option AuditRecord :=
  if r.action ∈ auditActionEnum then some r else none

/- ## Payment model (src/lib/db/models/payment.js) -/

/-- payment.js lines 84-89: the status enum. -/
inductive PayStatus
  | pending
  | verified
  | cancelled
deriving Repr, DecidableEq

/-- The payment fields the verify/send routes read and write. -/
structure PaymentRec where
  paymentId : String
  amount : Int
  swiftCode : String
  status : PayStatus
  sentToSwift : Bool
  verifiedBy : Option String
  verifiedAt : Option Int
  swiftSentAt : Option Int
deriving Repr, DecidableEq

/- ## Payment verify route (src/app/api/payment/verify/route.js) -/

/-- Outcomes of the verify POST handler past the session/CSRF/body
checks: 404, 409, a guard failure forwarded with its status, the 400
SWIFT-confirmation mismatch, or the 200 success. -/
inductive VerifyPayOutcome
  | notFound
  | invalidState
  | reauthFailed (e : ReauthError)
  | confirmationMismatch
  | ok
deriving Repr, DecidableEq

/-- Post-state of a verify POST call: the outcome, the payment row, the
persisted employee row, and the audit records that were actually persisted
(in creation order). -/
structure VerifyPayResult where
  outcome : VerifyPayOutcome
  payment : Option PaymentRec
  employee : Option EmployeeRec
  audits : List AuditRecord
deriving Repr, DecidableEq

/-- verify/route.js lines 56-161, from the payment lookup on (rate limit,
session, role and CSRF checks precede and do not touch this state).

Order of operations in the source: payment lookup (404), pending check
(409), `requireReauthIfNeeded` (audit `reauth_failure` + forwarded error on
throw; audit `reauth_success` on return), then the optional `confirmSwift`
comparison — `confirmSwift.trim().toUpperCase() ===
payment.swiftCode.toUpperCase()` — returning 400 on mismatch, then the
status/verifiedBy/verifiedAt update, session rotation, and the `verify`
audit.  `userId` is `session.user.userId`. -/
def verifyPaymentPOST (vp tcheck : String → String → Bool) (saveOk : Bool)
    (payment? : Option PaymentRec) (employee? : Option EmployeeRec)
    (userId : String) (now : Int)
    (confirmSwift reauthPassword totpCode : Option String) : VerifyPayResult :=
  match payment? with
  | none => ⟨.notFound, none, employee?, []⟩
  | some payment =>
    if payment.status ≠ .pending then
      ⟨.invalidState, some payment, employee?, []⟩
    else
      let g := requireReauthIfNeeded vp tcheck saveOk employee? now
        (some payment.amount) reauthPassword totpCode
      match g.result with
      | .err e =>
        ⟨.reauthFailed e, some payment, g.db,
          (auditCreate ⟨userId, .reauth_failure, some payment.paymentId⟩).toList⟩
      | .ok _ =>
        let audits1 := (auditCreate ⟨userId, .reauth_success, some payment.paymentId⟩).toList
        let mismatch := match confirmSwift with
          | some s => jsToUpper (jsTrim s) != jsToUpper payment.swiftCode
          | none => false
        if mismatch then
          ⟨.confirmationMismatch, some payment, g.db, audits1⟩
        else
          let payment1 := { payment with
            status := .verified
            verifiedBy := some userId
            verifiedAt := some now }
          ⟨.ok, some payment1, g.db,
            audits1 ++ (auditCreate ⟨userId, .verify, some payment.paymentId⟩).toList⟩

/- ## Payment send route (src/app/api/payment/send/route.js) -/

/-- Outcomes of the send POST handler past the session/CSRF/body checks:
404, the 409 non-verified conflict, the 409 already-sent conflict, a guard
failure forwarded with its status, or the 200 success. -/
inductive SendPayOutcome
  | notFound
  | invalidState
  | alreadySent
  | reauthFailed (e : ReauthError)
  | ok
deriving Repr, DecidableEq

/-- Post-state of a send POST call. -/
structure SendPayResult where
  outcome : SendPayOutcome
  payment : Option PaymentRec
  employee : Option EmployeeRec
  audits : List AuditRecord
deriving Repr, DecidableEq

/-- send/route.js lines 47-143, from the payment lookup on: payment lookup
(404), verified check (409), sentToSwift check (409 already sent),
`requireReauthIfNeeded` (audits as in verify), then `sentToSwift := true`,
`swiftSentAt := now`, session rotation and the `send` audit. -/
def sendPaymentPOST (vp tcheck : String → String → Bool) (saveOk : Bool)
    (payment? : Option PaymentRec) (employee? : Option EmployeeRec)
    (userId : String) (now : Int)
    (reauthPassword totpCode : Option String) : SendPayResult :=
  match payment? with
  | none => ⟨.notFound, none, employee?, []⟩
  | some payment =>
    if payment.status ≠ .verified then
      ⟨.invalidState, some payment, employee?, []⟩
    else if payment.sentToSwift then
      ⟨.alreadySent, some payment, employee?, []⟩
    else
      let g := requireReauthIfNeeded vp tcheck saveOk employee? now
        (some payment.amount) reauthPassword totpCode
      match g.result with
      | .err e =>
        ⟨.reauthFailed e, some payment, g.db,
          (auditCreate ⟨userId, .reauth_failure, some payment.paymentId⟩).toList⟩
      | .ok _ =>
        let payment1 := { payment with sentToSwift := true, swiftSentAt := some now }
        ⟨.ok, some payment1, g.db,
          (auditCreate ⟨userId, .reauth_success, some payment.paymentId⟩).toList
            ++ (auditCreate ⟨userId, .send, some payment.paymentId⟩).toList⟩

/- ## Auxiliary predicates and concrete records used in the theorems -/

/-- True only on the `valid` constructor. -/
def VerifyTokenResult.isValid : VerifyTokenResult → Bool
  | .valid _ _ => true
  | .invalid _ => false

/-- Counter consistency of a persisted employee record at clock `now`: a
watermark still inside the re-auth window can only have been written by the
guard's success branch (reauth.js lines 92-94), which zeroes the failure
counter in the same save.  The failure branches (lines 72, 83) are only
reachable when the window check at line 40 has already failed. -/
def reauthInv (e : EmployeeRec) (now : Int) : Prop :=
  ∀ t, e.lastReauthAt = some t → now - t ≤ REAUTH_WINDOW_SECONDS →
    e.reauthFailures = 0

/-- Concrete stand-in for the opaque bcrypt comparison in witnesses: the
plaintext matches exactly the stored digest string. -/
def vpEq : String → String → Bool := fun plain digest => plain == digest

/-- Concrete stand-in for the opaque TOTP check in witnesses. -/
def tcFalse : String → String → Bool := fun _ _ => false

/-- An employee with no watermark and a clean failure counter. -/
def c3Emp : EmployeeRec :=
  { password := "hash1"
    totpEnrolled := false
    totpSecretEncrypted := none
    lastReauthAt := none
    reauthFailures := 0 }

/-- The persisted employee record after a fully successful step-up at
time 100. -/
def c3EmpAfter : EmployeeRec :=
  { c3Emp with reauthFailures := 0, lastReauthAt := some 100 }

/-- An employee at the lockout threshold with no watermark. -/
def c4LockedEmp : EmployeeRec :=
  { password := "hash1"
    totpEnrolled := false
    totpSecretEncrypted := none
    lastReauthAt := none
    reauthFailures := 5 }

/-- A forged-claims token: signed with the session secret and pinned
algorithm but carrying issuer and audience strings different from the
fixed ones baked into `signToken`. -/
def c5EvilToken : SignedToken :=
  { payload := c1Payload0
    iss := "EvilIssuer"
    aud := "EvilAudience"
    jti := "sid-1"
    iat := 0
    exp := 1800
    alg := "HS256"
    key := SESSION_SECRET }

/-- A pending payment with stored SWIFT code `ABCDEF12`. -/
def c7Payment : PaymentRec :=
  { paymentId := "PAY-7"
    amount := 500
    swiftCode := "ABCDEF12"
    status := .pending
    sentToSwift := false
    verifiedBy := none
    verifiedAt := none
    swiftSentAt := none }

/-- An employee with a fresh watermark (time 0) and a clean counter, so a
guard call shortly after succeeds through the recent window. -/
def c7Emp : EmployeeRec :=
  { password := "hash1"
    totpEnrolled := false
    totpSecretEncrypted := none
    lastReauthAt := some 0
    reauthFailures := 0 }

/-- A verified payment not yet sent to SWIFT. -/
def c6ReadyPayment : PaymentRec :=
  { paymentId := "PAY-6"
    amount := 500
    swiftCode := "ABCDEF12"
    status := .verified
    sentToSwift := false
    verifiedBy := some "emp-1"
    verifiedAt := some 5
    swiftSentAt := none }

/-- A payment that has already been sent to SWIFT. -/
def c6SentPayment : PaymentRec :=
  { c6ReadyPayment with sentToSwift := true, swiftSentAt := some 6 }

/- ## Theorems: session token codec and session lifecycle -/

/-- The user object `verifyToken` builds never carries the `lastActivity`,
`absoluteExpiry` or `idleExpiry` claims (jwt.js lines 29-36 copy a fixed
set of fields). -/
theorem verifyToken_user_fields (tok : Token) (now : Int) (u : SessionClaims)
    (e : Int) (h : verifyToken tok now = .valid u e) :
    u.lastActivity = none ∧ u.absoluteExpiry = none ∧ u.idleExpiry = none := by
  cases tok with
  | malformed r => cases h
  | signed t =>
    simp only [verifyToken] at h
    by_cases h1 : t.key ≠ SESSION_SECRET ∨ t.alg ≠ "HS256"
    · rw [if_pos h1] at h; cases h
    · rw [if_neg h1] at h
      by_cases h2 : t.exp ≤ now
      · rw [if_pos h2] at h; cases h
      · rw [if_neg h2] at h
        cases h
        exact ⟨rfl, rfl, rfl⟩

/-- The `absolute_timeout` branch of `getSession` (session.js lines
108-111) is dead code: the user object it tests never has the
`absoluteExpiry` field. -/
theorem getSession_no_absolute_timeout (tok : Token) (now : Int) :
    (getSession tok now).isAbsoluteTimeout = false := by
  unfold getSession
  cases h : verifyToken tok now with
  | invalid e => rfl
  | valid u exp =>
    obtain ⟨_, h2, h3⟩ := verifyToken_user_fields tok now u exp h
    simp [h2, h3, jsTruthy, SessionRead.isAbsoluteTimeout]

/-- C1: reading a session at or past its absolute expiry does NOT yield an
invalid result with reason `absolute_timeout`.  `verifyToken` drops the
`absoluteExpiry` claim from the user object it returns, so the absolute
check in `getSession` never fires (first conjunct), and an
activity-renewal reissue re-signs the token with a fresh 30-minute JWT
`exp`, so the renewed token from the trace (login at 0, renewal at 500) is
still read as a fully valid session at `now = 1800 = absoluteExpiry` and
even at `now = 2299`; the original token at 1800 dies only through the JWT
`exp`, yielding `null` rather than the tagged `absolute_timeout` result. -/
theorem c1_absolute_timeout_not_enforced :
    (∀ (tok : Token) (now : Int), (getSession tok now).isAbsoluteTimeout = false) ∧
    c1Payload0.absoluteExpiry = some 1800 ∧
    c1RenewedClaims.absoluteExpiry = none ∧
    getSession c1Token1 1800 = .noSession ∧
    (getSession c1Token2 1800).isValidRead = true ∧
    (getSession c1Token2 2299).isValidRead = true := by
  refine ⟨getSession_no_absolute_timeout, ?_, ?_, ?_, ?_, ?_⟩ <;> decide

/-- C5: `verifyToken` classifies failures as expired vs invalid without
throwing and pins the algorithm and expiry, but it does NOT verify the
issuer or audience: the options object passes `iss`/`aud`, which are not
option names jsonwebtoken recognises (`issuer`/`audience` are), so a token
signed with the session secret under different issuer and audience strings
is accepted. -/
theorem c5_issuer_audience_not_verified :
    (c5EvilToken.iss == "DreamTeamSecurity") = false ∧
    (c5EvilToken.aud == "PaymentPortal") = false ∧
    (verifyToken (.signed c5EvilToken) 100).isValid = true ∧
    verifyToken (.malformed "not-a-jwt") 100 = .invalid "Invalid token" ∧
    verifyToken (.signed c5EvilToken) 1800 = .invalid "Token expired" ∧
    verifyToken (.signed { c5EvilToken with alg := "none" }) 100
      = .invalid "Invalid token" ∧
    verifyToken (.signed { c5EvilToken with key := "attacker-key" }) 100
      = .invalid "Invalid token" := by
  refine ⟨?_, ?_, ?_, ?_, ?_, ?_, ?_⟩ <;> decide

/- ## Theorems: step-up guard -/

/-- C8: the guard's full observable behavior — returned result and
persisted employee record — is identical for any two `amount` arguments,
all else equal: the destructured `amount` parameter is never read by the
body of `requireReauthIfNeeded`. -/
theorem c8_amount_independence (vp tcheck : String → String → Bool)
    (saveOk : Bool) (employee? : Option EmployeeRec) (now : Int)
    (a1 a2 : Option Int) (reauthPassword totpCode : Option String) :
    requireReauthIfNeeded vp tcheck saveOk employee? now a1 reauthPassword totpCode
      = requireReauthIfNeeded vp tcheck saveOk employee? now a2 reauthPassword totpCode := rfl

/-- C9: every `employee.save()` inside the guard is followed by
`.catch(() => {})`, so the result handed to the caller is the same whether
persistence succeeds or fails, and when persistence fails the stored
employee record is exactly the pre-call one — incremented failure counters
and fresh watermarks are silently lost. -/
theorem c9_save_failures_swallowed (vp tcheck : String → String → Bool)
    (employee? : Option EmployeeRec) (now : Int) (amount : Option Int)
    (reauthPassword totpCode : Option String) :
    (requireReauthIfNeeded vp tcheck false employee? now amount reauthPassword totpCode).result
      = (requireReauthIfNeeded vp tcheck true employee? now amount reauthPassword totpCode).result ∧
    (requireReauthIfNeeded vp tcheck false employee? now amount reauthPassword totpCode).db
      = employee? := by
  cases employee? with
  | none => exact ⟨rfl, rfl⟩
  | some e =>
    simp only [requireReauthIfNeeded]
    split_ifs <;> simp_all

/-- A guard call on an employee whose watermark is within the re-auth
window succeeds immediately with no state change, whatever credentials
(if any) accompany the call and whatever the amount. -/
theorem guard_recent_ok (vp tcheck : String → String → Bool) (saveOk : Bool)
    (e : EmployeeRec) (t now : Int) (amount : Option Int)
    (pw totp : Option String) (hwm : e.lastReauthAt = some t)
    (hw : now - t ≤ REAUTH_WINDOW_SECONDS) :
    requireReauthIfNeeded vp tcheck saveOk (some e) now amount pw totp
      = ⟨.ok e, some e⟩ := by
  have hb : recentBypass e now = true := by
    unfold recentBypass
    rw [hwm]
    simpa using hw
  simp only [requireReauthIfNeeded, hb, if_true]

/-- When the window bypass does not apply, a guard call that returns `ok`
ran the full credential path, so the employee it returns has a zeroed
failure counter and watermark `now`; with persistence working that record
is also what is stored. -/
theorem guard_ok_credential_path (vp tcheck : String → String → Bool)
    (saveOk : Bool) (e em : EmployeeRec) (now : Int) (amount : Option Int)
    (pw totp : Option String) (hnb : recentBypass e now = false)
    (hok : (requireReauthIfNeeded vp tcheck saveOk (some e) now amount pw totp).result
      = .ok em) :
    em.reauthFailures = 0 ∧ em.lastReauthAt = some now ∧
    (requireReauthIfNeeded vp tcheck true (some e) now amount pw totp).db = some em := by
  by_cases h1 : MAX_REAUTH_FAILURES ≤ e.reauthFailures
  · simp [requireReauthIfNeeded, hnb, h1] at hok
  · by_cases h2 : pw.getD "" = ""
    · simp [requireReauthIfNeeded, hnb, h1, h2] at hok
    · by_cases h3 : vp (pw.getD "") e.password = true
      · by_cases h4 : e.totpEnrolled = true
            ∧ verifyTOTP tcheck e.totpSecretEncrypted totp = false
        · simp [requireReauthIfNeeded, hnb, h1, h2, h3, h4] at hok
        · have hem : { e with reauthFailures := 0, lastReauthAt := some now } = em := by
            simpa [requireReauthIfNeeded, hnb, h1, h2, h3, h4] using hok
          subst hem
          refine ⟨rfl, rfl, ?_⟩
          simp [requireReauthIfNeeded, hnb, h1, h2, h3, h4]
      · simp [requireReauthIfNeeded, hnb, h1, h2, h3] at hok

/-- A guard success with working persistence leaves a stored record whose
watermark is within the window of `now` and whose counter is zero —
provided the pre-state satisfied the counter-consistency invariant. -/
theorem guard_ok_db (vp tcheck : String → String → Bool)
    (e em : EmployeeRec) (now : Int) (amount : Option Int)
    (pw totp : Option String) (hi : reauthInv e now)
    (hok : (requireReauthIfNeeded vp tcheck true (some e) now amount pw totp).result
      = .ok em) :
    (requireReauthIfNeeded vp tcheck true (some e) now amount pw totp).db = some em ∧
    ∃ t, em.lastReauthAt = some t ∧ now - t ≤ REAUTH_WINDOW_SECONDS ∧
      em.reauthFailures = 0 := by
  cases hb : recentBypass e now with
  | true =>
    obtain ⟨t, hwm, hw⟩ : ∃ t, e.lastReauthAt = some t
        ∧ now - t ≤ REAUTH_WINDOW_SECONDS := by
      unfold recentBypass at hb
      cases hl : e.lastReauthAt with
      | none => rw [hl] at hb; cases hb
      | some t => rw [hl] at hb; exact ⟨t, rfl, by simpa using hb⟩
    have hg := guard_recent_ok vp tcheck true e t now amount pw totp hwm hw
    rw [hg] at hok
    cases hok
    rw [hg]
    exact ⟨rfl, t, hwm, hw, hi t hwm hw⟩
  | false =>
    obtain ⟨h0, hwm, hdb⟩ :=
      guard_ok_credential_path vp tcheck true e em now amount pw totp hb hok
    refine ⟨hdb, now, hwm, ?_, h0⟩
    simp [REAUTH_WINDOW_SECONDS]

/-- The counter-consistency invariant is stable as the clock advances. -/
theorem reauthInv_mono (e : EmployeeRec) (now now1 : Int) (h : now ≤ now1)
    (hi : reauthInv e now) : reauthInv e now1 := by
  intro t ht hw
  exact hi t ht (by omega)

/-- Every guard call preserves the counter-consistency invariant on the
persisted record, whether or not its saves succeed: the failure branches
only run when the watermark is outside the window, and the success branch
writes watermark `now` together with a zero counter. -/
theorem reauthInv_preserved (vp tcheck : String → String → Bool)
    (saveOk : Bool) (e edb : EmployeeRec) (now : Int) (amount : Option Int)
    (pw totp : Option String) (hi : reauthInv e now)
    (hdb : (requireReauthIfNeeded vp tcheck saveOk (some e) now amount pw totp).db
      = some edb) :
    reauthInv edb now := by
  cases hb : recentBypass e now with
  | true =>
    obtain ⟨t, hwm, hw⟩ : ∃ t, e.lastReauthAt = some t
        ∧ now - t ≤ REAUTH_WINDOW_SECONDS := by
      unfold recentBypass at hb
      cases hl : e.lastReauthAt with
      | none => rw [hl] at hb; cases hb
      | some t => rw [hl] at hb; exact ⟨t, rfl, by simpa using hb⟩
    rw [guard_recent_ok vp tcheck saveOk e t now amount pw totp hwm hw] at hdb
    cases hdb
    exact hi
  | false =>
    have hnw : ∀ t, e.lastReauthAt = some t → ¬ (now - t ≤ REAUTH_WINDOW_SECONDS) := by
      intro t ht
      unfold recentBypass at hb
      rw [ht] at hb
      simpa using hb
    simp only [requireReauthIfNeeded, hb] at hdb
    split_ifs at hdb <;> cases hdb <;>
      first
        | exact hi
        | (intro t ht hw; exact absurd hw (hnw t ht))
        | (intro t ht hw; rfl)

/-- An employee record with no watermark satisfies the invariant at any
time; this covers provisioning (employee.js defaults `lastReauthAt: null`)
and logout, which clears the watermark and counter together
(logout/route.js). -/
theorem reauthInv_initial (e : EmployeeRec) (now : Int)
    (h : e.lastReauthAt = none) : reauthInv e now := by
  intro t ht
  rw [h] at ht
  cases ht

/-- C3: after a fully successful step-up at time `T` (guard returned `ok`
and persisted a record with watermark `T` and a clean counter), a guard
call at `T + reauthWindowSeconds - 1` with no supplied secret succeeds for
every amount, and a call at `T + reauthWindowSeconds + 1` with no supplied
secret fails with the 401 `ReauthRequired` error for every amount. -/
theorem c3_reauth_window_boundary (vp tcheck : String → String → Bool)
    (saveOk : Bool) (e e1 : EmployeeRec) (T : Int) (amount : Option Int)
    (pw totp : Option String)
    (hcall : requireReauthIfNeeded vp tcheck true (some e) T amount pw totp
      = ⟨.ok e1, some e1⟩)
    (hwm : e1.lastReauthAt = some T) (hfc : e1.reauthFailures = 0) :
    (∀ amt : Option Int,
      requireReauthIfNeeded vp tcheck saveOk (some e1)
          (T + REAUTH_WINDOW_SECONDS - 1) amt none none
        = ⟨.ok e1, some e1⟩) ∧
    (∀ amt : Option Int,
      requireReauthIfNeeded vp tcheck saveOk (some e1)
          (T + REAUTH_WINDOW_SECONDS + 1) amt none none
        = ⟨.err .reauthRequired, some e1⟩) := by
  constructor
  · intro amt
    exact guard_recent_ok vp tcheck saveOk e1 T
      (T + REAUTH_WINDOW_SECONDS - 1) amt none none hwm (by omega)
  · intro amt
    have hb : recentBypass e1 (T + REAUTH_WINDOW_SECONDS + 1) = false := by
      unfold recentBypass
      rw [hwm]
      simp
      omega
    have hl : ¬ MAX_REAUTH_FAILURES ≤ e1.reauthFailures := by
      rw [hfc]
      simp [MAX_REAUTH_FAILURES]
    simp [requireReauthIfNeeded, hb, hl]

/-- C3 witness: a concrete employee with no watermark performs a password
step-up at time 100; the guard then accepts a secretless call at 399 and
rejects one at 401 with `ReauthRequired`. -/
theorem c3_reauth_window_boundary_witness :
    (requireReauthIfNeeded vpEq tcFalse true (some c3EmpAfter)
        (100 + REAUTH_WINDOW_SECONDS - 1) none none none
      = ⟨.ok c3EmpAfter, some c3EmpAfter⟩) ∧
    (requireReauthIfNeeded vpEq tcFalse true (some c3EmpAfter)
        (100 + REAUTH_WINDOW_SECONDS + 1) none none none
      = ⟨.err .reauthRequired, some c3EmpAfter⟩) :=
  ⟨(c3_reauth_window_boundary vpEq tcFalse true c3Emp c3EmpAfter 100 none
      (some "hash1") none (by decide) (by decide) (by decide)).1 none,
   (c3_reauth_window_boundary vpEq tcFalse true c3Emp c3EmpAfter 100 none
      (some "hash1") none (by decide) (by decide) (by decide)).2 none⟩

/-- C4: an employee whose persisted failure counter has reached
`maxFailures` and who has no recent-window watermark is rejected with the
429 `TooManyAttempts` error before any credential check — the outcome and
stored record are the same for every password-verification function,
including one that accepts the supplied secret — and, in the same setting,
any guard call that returns `ok` without having used the window bypass has
run the full credential path and stored a record with `reauthFailures = 0`
(and watermark `now`). -/
theorem c4_lockout_blocks_and_success_resets (vp tcheck : String → String → Bool)
    (saveOk : Bool) (e : EmployeeRec) (now : Int) (amount : Option Int)
    (pw : String) (totp : Option String)
    (hlock : MAX_REAUTH_FAILURES ≤ e.reauthFailures)
    (hwm : e.lastReauthAt = none)
    (hcorrect : vp pw e.password = true) :
    (requireReauthIfNeeded vp tcheck saveOk (some e) now amount (some pw) totp
      = ⟨.err .tooManyAttempts, some e⟩) ∧
    (∀ (e1 em : EmployeeRec) (now1 : Int) (amt : Option Int)
        (pw1 totp1 : Option String),
      recentBypass e1 now1 = false →
      (requireReauthIfNeeded vp tcheck true (some e1) now1 amt pw1 totp1).result
        = .ok em →
      em.reauthFailures = 0 ∧ em.lastReauthAt = some now1) := by
  constructor
  · have hb : recentBypass e now = false := by
      unfold recentBypass
      rw [hwm]
    simp [requireReauthIfNeeded, hb, hlock]
  · intro e1 em now1 amt pw1 totp1 hnb hok
    obtain ⟨h0, hw, _⟩ :=
      guard_ok_credential_path vp tcheck true e1 em now1 amt pw1 totp1 hnb hok
    exact ⟨h0, hw⟩

/-- C4 witness: the locked employee (five recorded failures, no watermark)
is rejected with `TooManyAttempts` even though the supplied secret matches
the stored digest under the concrete checker, and the concrete successful
step-up of the C3 trace stores a zero counter and fresh watermark. -/
theorem c4_lockout_blocks_and_success_resets_witness :
    (requireReauthIfNeeded vpEq tcFalse true (some c4LockedEmp) 1000 none
        (some "hash1") none
      = ⟨.err .tooManyAttempts, some c4LockedEmp⟩) ∧
    (c3EmpAfter.reauthFailures = 0 ∧ c3EmpAfter.lastReauthAt = some 100) :=
  ⟨(c4_lockout_blocks_and_success_resets vpEq tcFalse true c4LockedEmp 1000 none
      "hash1" none (by decide) (by decide) (by decide)).1,
   (c4_lockout_blocks_and_success_resets vpEq tcFalse true c4LockedEmp 1000 none
      "hash1" none (by decide) (by decide) (by decide)).2 c3Emp c3EmpAfter 100
      none (some "hash1") none (by decide) (by decide)⟩

/- ## Theorems: audit trail and payment transitions -/

/-- C2: the audit schema's `action` enum only admits `login`, `verify` and
`send` (audit.js lines 28-33), so the `reauth_success` / `reauth_failure`
records the verify, send and reauth routes attempt to write are rejected
by schema validation and silently dropped by the surrounding try/catch: a
fully successful verify persists only the `verify` record and a fully
successful send persists only the `send` record — the guard calls
contribute zero persisted audit records, and a failed guard call persists
none at all. -/
theorem c2_reauth_audits_never_persisted :
    auditCreate ⟨"emp-1", .reauth_success, some "PAY-7"⟩ = none ∧
    auditCreate ⟨"emp-1", .reauth_failure, some "PAY-7"⟩ = none ∧
    (verifyPaymentPOST vpEq tcFalse true (some c7Payment) (some c7Emp)
        "emp-1" 10 none none none).audits
      = [⟨"emp-1", .verify, some "PAY-7"⟩] ∧
    (sendPaymentPOST vpEq tcFalse true (some c6ReadyPayment) (some c7Emp)
        "emp-1" 10 none none).audits
      = [⟨"emp-1", .send, some "PAY-6"⟩] ∧
    (verifyPaymentPOST vpEq tcFalse true (some c7Payment) (some c3Emp)
        "emp-1" 10 none none none).audits = [] := by
  refine ⟨rfl, rfl, ?_, ?_, ?_⟩ <;> decide

/-- C6: verify requires an existing, `pending` payment and send requires
an existing, `verified`, not-yet-sent payment; an unknown id yields the
404 not-found outcome, a status violation the 409 invalid-state outcome,
and a second send on an already-sent payment the distinct 409
already-sent outcome with no change to any record and no audit written —
not a silent success. -/
theorem c6_transition_preconditions (vp tcheck : String → String → Bool)
    (saveOk : Bool) (employee? : Option EmployeeRec) (userId : String)
    (now : Int) (cs pw totp : Option String) :
    (verifyPaymentPOST vp tcheck saveOk none employee? userId now cs pw totp).outcome
      = .notFound ∧
    (sendPaymentPOST vp tcheck saveOk none employee? userId now pw totp).outcome
      = .notFound ∧
    (∀ p : PaymentRec,
      (verifyPaymentPOST vp tcheck saveOk (some p) employee? userId now cs pw totp).outcome
          = .ok →
      p.status = .pending) ∧
    (∀ p : PaymentRec, p.status ≠ .pending →
      (verifyPaymentPOST vp tcheck saveOk (some p) employee? userId now cs pw totp).outcome
        = .invalidState) ∧
    (∀ p : PaymentRec,
      (sendPaymentPOST vp tcheck saveOk (some p) employee? userId now pw totp).outcome
          = .ok →
      p.status = .verified ∧ p.sentToSwift = false) ∧
    (∀ p : PaymentRec, p.status ≠ .verified →
      (sendPaymentPOST vp tcheck saveOk (some p) employee? userId now pw totp).outcome
        = .invalidState) ∧
    (∀ p : PaymentRec, p.status = .verified → p.sentToSwift = true →
      sendPaymentPOST vp tcheck saveOk (some p) employee? userId now pw totp
        = ⟨.alreadySent, some p, employee?, []⟩) := by
  refine ⟨rfl, rfl, ?_, ?_, ?_, ?_, ?_⟩
  · intro p hok
    by_cases hs : p.status = PayStatus.pending
    · exact hs
    · simp [verifyPaymentPOST, hs] at hok
  · intro p hs
    simp [verifyPaymentPOST, hs]
  · intro p hok
    by_cases hs : p.status = PayStatus.verified
    · by_cases hsw : p.sentToSwift = true
      · simp [sendPaymentPOST, hs, hsw] at hok
      · exact ⟨hs, by simpa using hsw⟩
    · simp [sendPaymentPOST, hs] at hok
  · intro p hs
    simp [sendPaymentPOST, hs]
  · intro p hs hsw
    simp [sendPaymentPOST, hs, hsw]

/-- C6 witness: concrete runs — an unknown payment id is rejected with
not-found, and a second send on the already-sent concrete payment is the
already-sent conflict leaving every record untouched. -/
theorem c6_transition_preconditions_witness :
    (verifyPaymentPOST vpEq tcFalse true none (some c7Emp) "emp-1" 10
        none none none).outcome = .notFound ∧
    sendPaymentPOST vpEq tcFalse true (some c6SentPayment) (some c7Emp)
        "emp-1" 10 none none
      = ⟨.alreadySent, some c6SentPayment, some c7Emp, []⟩ :=
  ⟨(c6_transition_preconditions vpEq tcFalse true (some c7Emp) "emp-1" 10
      none none none).1,
   (c6_transition_preconditions vpEq tcFalse true (some c7Emp) "emp-1" 10
      none none none).2.2.2.2.2.2 c6SentPayment (by decide) (by decide)⟩


/-- C7 counterexample: the claim predicts `ConfirmationMismatch` whenever
the supplied confirmation differs from the stored SWIFT code under plain
case-insensitive comparison, but the route trims the supplied string first
(verify/route.js line 119): `" ABCDEF12"` differs case-insensitively from
the stored `"ABCDEF12"`, yet the concrete verify run succeeds. -/
theorem c7_claim_counterexample :
    (jsToUpper " ABCDEF12" == jsToUpper c7Payment.swiftCode) = false ∧
    (verifyPaymentPOST vpEq tcFalse true (some c7Payment) (some c7Emp)
        "emp-1" 10 (some " ABCDEF12") none none).outcome = .ok := by
  refine ⟨?_, ?_⟩ <;> decide

/-- C7 (amended): for a pending payment, once the step-up guard has
succeeded, a supplied confirmation string fails with
`ConfirmationMismatch` exactly when it differs from the stored SWIFT code
case-insensitively after trimming surrounding whitespace from the supplied
string, and the verify transition goes through exactly when the trimmed
strings match case-insensitively. -/
theorem c7_swift_confirmation_trimmed (vp tcheck : String → String → Bool)
    (saveOk : Bool) (payment : PaymentRec) (employee? : Option EmployeeRec)
    (userId : String) (now : Int) (s : String) (pw totp : Option String)
    (hpending : payment.status = .pending)
    (hguard : (requireReauthIfNeeded vp tcheck saveOk employee? now
        (some payment.amount) pw totp).result.isOk = true) :
    ((verifyPaymentPOST vp tcheck saveOk (some payment) employee? userId now
          (some s) pw totp).outcome = .confirmationMismatch
      ↔ jsToUpper (jsTrim s) ≠ jsToUpper payment.swiftCode) ∧
    ((verifyPaymentPOST vp tcheck saveOk (some payment) employee? userId now
          (some s) pw totp).outcome = .ok
      ↔ jsToUpper (jsTrim s) = jsToUpper payment.swiftCode) := by
  cases hg : (requireReauthIfNeeded vp tcheck saveOk employee? now
      (some payment.amount) pw totp).result with
  | err er => rw [hg] at hguard; cases hguard
  | ok em =>
    by_cases hm : jsToUpper (jsTrim s) = jsToUpper payment.swiftCode
    · simp [verifyPaymentPOST, hpending, hg, hm]
    · simp [verifyPaymentPOST, hpending, hg, hm]

/-- C7 witness: with the guard satisfied through the recent window, the
concrete confirmation `"xx"` is rejected as a mismatch and the trimmed
lowercase `" abcdef12 "` is accepted. -/
theorem c7_swift_confirmation_trimmed_witness :
    (verifyPaymentPOST vpEq tcFalse true (some c7Payment) (some c7Emp)
        "emp-1" 10 (some "xx") none none).outcome = .confirmationMismatch ∧
    (verifyPaymentPOST vpEq tcFalse true (some c7Payment) (some c7Emp)
        "emp-1" 10 (some " abcdef12 ") none none).outcome = .ok :=
  ⟨(c7_swift_confirmation_trimmed vpEq tcFalse true c7Payment (some c7Emp)
      "emp-1" 10 "xx" none none (by decide) (by decide)).1.mpr (by decide),
   (c7_swift_confirmation_trimmed vpEq tcFalse true c7Payment (some c7Emp)
      "emp-1" 10 " abcdef12 " none none (by decide) (by decide)).2.mpr (by decide)⟩

/-- C10: when a verify call ends in `ConfirmationMismatch`, the guard had
already succeeded (the comparison runs only after `requireReauthIfNeeded`
returns), the payment row is unchanged — still the original pending record
with `verifiedBy`/`verifiedAt` unset — and the persisted employee record
carries a watermark inside the re-auth window with a zero failure counter
(the counter-consistency invariant `reauthInv`, preserved by every guard
call, rules out a fresh watermark next to a nonzero counter), so any
guard-gated retry while the window lasts succeeds with no credentials. -/
theorem c10_mismatch_leaves_payment_but_warm_watermark
    (vp tcheck : String → String → Bool) (payment : PaymentRec)
    (e : EmployeeRec) (userId : String) (now : Int) (s : String)
    (pw totp : Option String) (hinv : reauthInv e now)
    (hout : (verifyPaymentPOST vp tcheck true (some payment) (some e) userId
        now (some s) pw totp).outcome = .confirmationMismatch) :
    (verifyPaymentPOST vp tcheck true (some payment) (some e) userId now
        (some s) pw totp).payment = some payment ∧
    payment.status = .pending ∧
    (requireReauthIfNeeded vp tcheck true (some e) now (some payment.amount)
        pw totp).result.isOk = true ∧
    (∃ e1 t,
      (verifyPaymentPOST vp tcheck true (some payment) (some e) userId now
          (some s) pw totp).employee = some e1 ∧
      e1.lastReauthAt = some t ∧ now - t ≤ REAUTH_WINDOW_SECONDS ∧
      e1.reauthFailures = 0 ∧
      ∀ (now1 : Int) (amt : Option Int) (pw1 totp1 : Option String),
        now1 - t ≤ REAUTH_WINDOW_SECONDS →
        requireReauthIfNeeded vp tcheck true (some e1) now1 amt pw1 totp1
          = ⟨.ok e1, some e1⟩) := by
  by_cases hpending : payment.status = PayStatus.pending
  · cases hg : (requireReauthIfNeeded vp tcheck true (some e) now
        (some payment.amount) pw totp).result with
    | err er => simp [verifyPaymentPOST, hpending, hg] at hout
    | ok em =>
      obtain ⟨hdb, t, hwm, hw, h0⟩ :=
        guard_ok_db vp tcheck e em now (some payment.amount) pw totp hinv hg
      by_cases hm : jsToUpper (jsTrim s) = jsToUpper payment.swiftCode
      · simp [verifyPaymentPOST, hpending, hg, hm] at hout
      · refine ⟨?_, hpending, ?_, em, t, ?_, hwm, hw, h0, ?_⟩
        · simp [verifyPaymentPOST, hpending, hg, hm]
        · rfl
        · simp [verifyPaymentPOST, hpending, hg, hm, hdb]
        · intro now1 amt pw1 totp1 hw1
          exact guard_recent_ok vp tcheck true em t now1 amt pw1 totp1 hwm hw1
  · simp [verifyPaymentPOST, hpending] at hout

/-- C10 witness: a concrete mismatching verify run (employee warm from a
step-up at time 0, call at time 10, confirmation `"xx"`) leaves the
pending payment untouched while the persisted employee record still
satisfies the guard with no credentials. -/
theorem c10_mismatch_leaves_payment_but_warm_watermark_witness :
    (verifyPaymentPOST vpEq tcFalse true (some c7Payment) (some c7Emp)
        "emp-1" 10 (some "xx") none none).payment = some c7Payment ∧
    c7Payment.status = .pending :=
  ⟨(c10_mismatch_leaves_payment_but_warm_watermark vpEq tcFalse c7Payment
      c7Emp "emp-1" 10 "xx" none none
      (fun t ht _ => rfl) (by decide)).1,
   (c10_mismatch_leaves_payment_but_warm_watermark vpEq tcFalse c7Payment
      c7Emp "emp-1" 10 "xx" none none
      (fun t ht _ => rfl) (by decide)).2.1⟩
